import Mathlib

/-!
Verification of the stream-reconciliation core of the `audio-capture`
repository (`src/audio_detect/core.py` and `src/audio_detect/detectors.py`).

The Python code is shallowly embedded: each Python function becomes a Lean
function of the same name; Python dicts produced by the parsers become a
record with one `Option` field per key the code can ever store; fallible
Python code (uncaught `ValueError` / `KeyError` / `IndexError`) becomes
`Except PyErr`; external effects (`subprocess.run`, `time.time()`, the
Chrome DevTools connection) become explicit parameters carrying that
effect's result.  Timestamps (Python floats used only through `-` and `>`)
are modelled as rationals.

Python string builtins (`strip`, `split`, `in`, `lower`, `int(...)`,
`startswith`, `rstrip`, `isdigit`) are modelled by executable helpers over
`List Char` restricted to ASCII text, which is the alphabet of all the
tool output the parsers consume.
-/

deriving instance DecidableEq for Except

namespace AudioDetect

/-- The whitespace set of Python `str.strip()` (ASCII part). -/
def pyIsSpace (c : Char) : Bool :=
  c = ' ' || c = '\t' || c = '\n' || c = '\r' || c = '\x0b' || c = '\x0c'

def stripChars (cs : List Char) : List Char :=
  ((cs.dropWhile pyIsSpace).reverse.dropWhile pyIsSpace).reverse

/-- Python `s.strip()`. -/
def pyStrip (s : String) : String := ⟨stripChars s.toList⟩

/-- Python `s.startswith(p)`. -/
def pyStartsWith (s p : String) : Bool := p.toList.isPrefixOf s.toList

/-- Checks that `needle` occurs as a contiguous substring of the list. -/
def listInfix (needle : List Char) : List Char → Bool
  | [] => needle.isPrefixOf []
  | c :: cs => needle.isPrefixOf (c :: cs) || listInfix needle cs

/-- Python `needle in hay` on strings. -/
def strIn (hay needle : String) : Bool := listInfix needle.toList hay.toList

/-- Fuel-driven splitter; fuel is initialised to the text length, which is
an upper bound on the number of steps, so the `0, cs` arm is never hit. -/
def splitSeqAux (sep : List Char) : Nat → List Char → List (List Char)
  | _, [] => [[]]
  | 0, cs => [cs]
  | Nat.succ fuel, c :: cs =>
    if sep.isPrefixOf (c :: cs) then
      [] :: splitSeqAux sep fuel (List.drop (sep.length - 1) cs)
    else
      match splitSeqAux sep fuel cs with
      | [] => [[c]]
      | h :: t => (c :: h) :: t

/-- Python `s.split(sep)` for a non-empty separator (keeps empty pieces). -/
def pySplit (s sep : String) : List String :=
  (splitSeqAux sep.toList s.toList.length s.toList).map fun l => ⟨l⟩

/-- Python `s.split(' ', 1)`: split at the first space only. -/
def pySplitSpace1 (s : String) : List String :=
  match s.toList.findIdx? (fun c => c = ' ') with
  | none => [s]
  | some i => [⟨s.toList.take i⟩, ⟨s.toList.drop (i + 1)⟩]

/-- Python `s.rstrip('.')`. -/
def pyRstripDot (s : String) : String :=
  ⟨(s.toList.reverse.dropWhile (fun c => c = '.')).reverse⟩

def charLower (c : Char) : Char :=
  if 'A' ≤ c && c ≤ 'Z' then Char.ofNat (c.toNat + 32) else c

/-- Python `s.lower()` (ASCII letters). -/
def pyLower (s : String) : String := ⟨s.toList.map charLower⟩

/-- Numeric value of a list of decimal digits. -/
def digitsVal (ds : List Char) : Nat := ds.foldl (fun n c => n * 10 + (c.toNat - 48)) 0

/-- Python `int(s)`: optional surrounding whitespace, optional sign, then
decimal digits; anything else raises `ValueError`, modelled as `none`. -/
def pyInt (s : String) : Option Int :=
  let t := stripChars s.toList
  let core := if t.head? = some '-' || t.head? = some '+' then t.drop 1 else t
  if core ≠ [] && core.all Char.isDigit then
    if t.head? = some '-' then some (-(digitsVal core : Int)) else some (digitsVal core)
  else none

/-- Python `s.isdigit()` (ASCII digits). -/
def pyIsDigit (s : String) : Bool := s.toList ≠ [] && s.toList.all Char.isDigit

/-- The Python exceptions the embedded code can raise without catching. -/
inductive PyErr where
  | valueError
  | keyError
  | indexError
deriving DecidableEq, Repr

/-- A raw parsed record: a Python dict whose possible keys are exactly the
ones `_parse_pactl_sink_inputs` and `_parse_wpctl_status` can store.  A
`none` field is an absent key.  The key `mute` is listed because
`merge_stream_data` *reads* `pactl_stream.get('mute', False)`; no parser
ever writes it. -/
structure RawRecord where
  id : Option Int := none
  application : Option String := none
  media : Option String := none
  sink : Option String := none
  corked : Option Bool := none
  muted : Option Bool := none
  mute : Option Bool := none
  volume : Option String := none
  name : Option String := none
  state : Option String := none
deriving DecidableEq, Repr

/-- Python dict truthiness: `if current:` is true iff some key is present. -/
def RawRecord.isEmptyDict (r : RawRecord) : Bool :=
  r.id.isNone && r.application.isNone && r.media.isNone && r.sink.isNone &&
  r.corked.isNone && r.muted.isNone && r.mute.isNone && r.volume.isNone &&
  r.name.isNone && r.state.isNone

/-- Model of `core.AudioStream` (the dataclass). `last_activity` is a timestamp. -/
structure AudioStream where
  id : Int
  state : String
  application : String
  media : String
  sink : String
  sink_name : String
  monitor : String
  volume : String := "0%"
  is_teams : Bool := false
  is_browser : Bool := false
  last_activity : ℚ := 0
  _corked : Bool := false
  _muted : Bool := false
deriving DecidableEq, Repr

/-- Model of `detectors.ChromeTab` (the fields the state logic reads). -/
structure ChromeTab where
  id : String := ""
  title : String := ""
  url : String := ""
  tab_type : String := ""
  favicon_url : String := ""
  ws_url : String := ""
  has_audio : Bool := false
  audio_state : String := "unknown"
deriving DecidableEq, Repr

/-- Accumulator of the `_parse_pactl_sink_inputs` loop.  `err` records a
raised exception; once set, the remaining iterations are skipped (the
exception propagates). -/
structure PactlSt where
  streams : List RawRecord := []
  current : RawRecord := {}
  err : Option PyErr := none
deriving DecidableEq, Repr

/-- One iteration of the `for line in output.split('\n')` loop of
`_parse_pactl_sink_inputs` (core.py lines 94-118). -/
def pactlStep (st : PactlSt) (rawLine : String) : PactlSt :=
  if st.err.isSome then st else
  let line := pyStrip rawLine
  if pyStartsWith line "Sink Input #" then
    let streams := if st.current.isEmptyDict then st.streams else st.streams ++ [st.current]
    match (pySplit line "#")[1]? with
    | none => { st with streams := streams, err := some .indexError }
    | some part =>
      match pyInt part with
      | none => { st with streams := streams, err := some .valueError }
      | some n => { streams := streams, current := { id := some n }, err := none }
  else if pyStartsWith line "application.name = " then
    match (pySplit line "\"")[1]? with
    | none => { st with err := some .indexError }
    | some v => { st with current := { st.current with application := some v } }
  else if pyStartsWith line "media.name = " then
    match (pySplit line "\"")[1]? with
    | none => { st with err := some .indexError }
    | some v => { st with current := { st.current with media := some v } }
  else if pyStartsWith line "Sink: " then
    match (pySplit line ": ")[1]? with
    | none => { st with err := some .indexError }
    | some v => { st with current := { st.current with sink := some v } }
  else if pyStartsWith line "Corked: " then
    match (pySplit line ": ")[1]? with
    | none => { st with err := some .indexError }
    | some v => { st with current := { st.current with corked := some (v = "yes") } }
  else if pyStartsWith line "Mute: " then
    match (pySplit line ": ")[1]? with
    | none => { st with err := some .indexError }
    | some v => { st with current := { st.current with muted := some (v = "yes") } }
  else if pyStartsWith line "Volume: " then
    match (pySplit line ": ")[1]? with
    | none => { st with err := some .indexError }
    | some vp =>
      if strIn vp "%" then
        { st with current :=
            { st.current with volume := some (((pySplit vp "%").headD "") ++ "%") } }
      else st
  else st

def parsePactlLines (lines : List String) : PactlSt :=
  lines.foldl pactlStep {}

/-- Model of `core._parse_pactl_sink_inputs`: parse the mixer listing; an uncaught
exception in the loop surfaces as `.error`. -/
def _parse_pactl_sink_inputs (output : String) : Except PyErr (List RawRecord) :=
  let st := parsePactlLines (pySplit output "\n")
  match st.err with
  | some e => .error e
  | none => .ok (if st.current.isEmptyDict then st.streams else st.streams ++ [st.current])

/-- Model of `core.list_sink_inputs_pactl`: the `pactl list sink-inputs` call.  The
parameter is the tool invocation's outcome (`.error ()` is
`CalledProcessError`, which the function maps to `[]`; parse exceptions
are *not* caught there and propagate). -/
def list_sink_inputs_pactl (toolResult : Except Unit String) : Except PyErr (List RawRecord) :=
  match toolResult with
  | .error _ => .ok []
  | .ok out => _parse_pactl_sink_inputs out

/-- Matches the regex `^\s*\d+\.` of `_parse_wpctl_status`. -/
def matchesNumDot (line : String) : Bool :=
  let rest := line.toList.dropWhile (fun c => pyIsSpace c)
  let ds := rest.takeWhile (fun c => c.isDigit)
  ds ≠ [] && (rest.drop ds.length).head? = some '.'

/-- Accumulator of the `_parse_wpctl_status` loop. -/
structure WpctlSt where
  streams : List RawRecord := []
  in_streams : Bool := false
  err : Option PyErr := none
deriving DecidableEq, Repr

/-- One iteration of the `for line in output.split('\n')` loop of
`_parse_wpctl_status` (core.py lines 146-166). -/
def wpctlStep (st : WpctlSt) (line : String) : WpctlSt :=
  if st.err.isSome then st else
  if strIn line "└─ Streams:" then { st with in_streams := true }
  else if pyStrip line ≠ "" && !pyStartsWith line " " && !pyStartsWith line "\t"
      && st.in_streams then
    { st with in_streams := false }
  else if st.in_streams && pyStrip line ≠ "" then
    if matchesNumDot line then
      let parts := pySplitSpace1 (pyStrip line)
      if parts.length ≥ 2 then
        match pyInt (pyRstripDot (parts.headD "")) with
        | none => { st with err := some .valueError }
        | some n =>
          { st with streams := st.streams ++
              [{ id := some n, name := parts[1]?, state := some "RUNNING" }] }
      else st
    else st
  else st

def parseWpctlLines (lines : List String) : WpctlSt :=
  lines.foldl wpctlStep {}

/-- Model of `core._parse_wpctl_status`: parse the routing-graph status dump. -/
def _parse_wpctl_status (output : String) : Except PyErr (List RawRecord) :=
  let st := parseWpctlLines (pySplit output "\n")
  match st.err with
  | some e => .error e
  | none => .ok st.streams

def teams_keywords : List String :=
  ["microsoft teams", "teams.microsoft.com", "teams meeting", "microsoft teams meeting"]

/-- Model of `core.is_teams_stream`: keys `application`, `media`, `name` (missing
keys default to `''`). -/
def is_teams_stream (r : RawRecord) : Bool :=
  let app := pyLower (r.application.getD "")
  let media := pyLower (r.media.getD "")
  let name := pyLower (r.name.getD "")
  teams_keywords.any fun k => strIn app k || strIn media k || strIn name k

def browser_names : List String :=
  ["google chrome", "chromium", "microsoft edge", "firefox", "brave", "vivaldi"]

/-- Model of `core.is_browser_stream`: reads only the keys `application` and `name`
(missing keys default to `''`); the `media` key is not consulted. -/
def is_browser_stream (r : RawRecord) : Bool :=
  let app := pyLower (r.application.getD "")
  let name := pyLower (r.name.getD "")
  browser_names.any fun b => strIn app b || strIn name b

/-- Model of `core.get_monitor_source`. -/
def get_monitor_source (sink_name : String) : String := sink_name ++ ".monitor"

/-- Loop of `core._extract_sink_name`; the flag models
`current_id is not None`. -/
def extractSinkNameGo (sink_id : Int) : List String → Bool → Option String
  | [], _ => none
  | l :: ls, found =>
    if pyStartsWith l ("Sink #" ++ toString sink_id) then extractSinkNameGo sink_id ls true
    else if found && pyStartsWith l "\tName: " then some (((pySplit l ": ")[1]?).getD "")
    else extractSinkNameGo sink_id ls found

/-- Model of `core._extract_sink_name`: find the `Name:` of `Sink #<id>`; the final
`current_name or f"unknown_sink_{sink_id}"` makes `None` and `''` both
fall back. -/
def _extract_sink_name (output : String) (sink_id : Int) : String :=
  match extractSinkNameGo sink_id (pySplit output "\n") false with
  | some nm => if nm = "" then "unknown_sink_" ++ toString sink_id else nm
  | none => "unknown_sink_" ++ toString sink_id

/-- The dict comprehension building the wpctl lookup keyed by id: raises
`KeyError` at the first record with no `id`; a later duplicate id
overwrites an earlier one. -/
def buildLookup : List RawRecord → Except PyErr (List (Int × RawRecord))
  | [] => .ok []
  | r :: rs =>
    match r.id with
    | none => .error .keyError
    | some n => (buildLookup rs).map fun l => (n, r) :: l

/-- Python dict lookup on the association list built above (insertion
order with later keys overwriting: take the last matching entry). -/
def dictGet (l : List (Int × RawRecord)) (n : Int) : Option RawRecord :=
  ((l.filter fun p => p.1 == n).getLast?).map fun p => p.2

/-- The body of the `for pactl_stream in pactl_streams` loop of
`core.merge_stream_data` (lines 238-310), for one mixer record.
`sinksOut` is the outcome of the `pactl list sinks` call issued when the
sink reference is numeric (`.error ()` = `CalledProcessError`), and `now`
is `time.time()`.  Note the source reads `pactl_stream.get('mute', False)`
for the state logic but `pactl_stream.get('muted', False)` for the stored
raw flag. -/
def mergeOneStream (wl : List (Int × RawRecord)) (sinksOut : Except Unit String)
    (now : ℚ) (r : RawRecord) : Except PyErr AudioStream :=
  match r.id with
  | none => .error .keyError
  | some stream_id =>
    let w := (dictGet wl stream_id).getD {}
    let corked := r.corked.getD false
    let muted := r.mute.getD false
    let wpctl_state := w.state.getD ""
    let state :=
      if wpctl_state ≠ "" then wpctl_state
      else if corked then "CORKED"
      else if muted then "MUTED"
      else if strIn (r.volume.getD "0%") "0%" then "IDLE"
      else "RUNNING"
    let sink := r.sink.getD "unknown"
    let sink_name :=
      if pyIsDigit sink then
        match sinksOut with
        | .ok out => _extract_sink_name out ((pyInt sink).getD 0)
        | .error _ => "alsa_output." ++ sink
      else sink
    let last_activity : ℚ := if state = "RUNNING" then now else 0
    .ok { id := stream_id
          state := state
          application := r.application.getD "Unknown"
          media := r.media.getD "Unknown"
          sink := sink
          sink_name := sink_name
          monitor := get_monitor_source sink_name
          volume := r.volume.getD "0%"
          is_teams := is_teams_stream r
          is_browser := is_browser_stream r
          last_activity := last_activity
          _corked := r.corked.getD false
          _muted := r.muted.getD false }

/-- The `for pactl_stream in pactl_streams` loop of
`core.merge_stream_data`: one stream is appended per mixer record, in
order, and an exception raised for one record aborts the whole call. -/
def mergeLoop (wl : List (Int × RawRecord)) (sinksOut : Except Unit String)
    (now : ℚ) : List RawRecord → Except PyErr (List AudioStream)
  | [] => .ok []
  | r :: rs =>
    match mergeOneStream wl sinksOut now r with
    | .error e => .error e
    | .ok s =>
      match mergeLoop wl sinksOut now rs with
      | .error e => .error e
      | .ok ss => .ok (s :: ss)

/-- Model of `core.merge_stream_data`. -/
def merge_stream_data (pactl_streams wpctl_streams : List RawRecord)
    (sinksOut : Except Unit String) (now : ℚ) : Except PyErr (List AudioStream) :=
  match buildLookup wpctl_streams with
  | .error e => .error e
  | .ok wl => mergeLoop wl sinksOut now pactl_streams

/-! ## Detector strategies (`detectors.py`) -/

/-- The volume fallback of `PulseAudioStateDetector.get_stream_state`
(lines 87-97): `int(''.join(filter(str.isdigit, volume_str)))`, with
`ValueError` ignored, then the `RUNNING` default. -/
def pulseVolumeCheck (s : AudioStream) : String :=
  if (if s.volume = "" then "0%" else s.volume).toList.filter Char.isDigit ≠ [] ∧
      digitsVal ((if s.volume = "" then "0%" else s.volume).toList.filter Char.isDigit) = 0
  then "IDLE" else "RUNNING"

/-- Model of `PulseAudioStateDetector.get_stream_state` (lines 71-97); `now` is
`time.time()` and `idle_timeout` the constructor parameter. -/
def pulse_get_stream_state (idle_timeout now : ℚ) (s : AudioStream) : String :=
  if s._corked then "CORKED"
  else if s._muted then "MUTED"
  else if s.last_activity > 0 then
    if now - s.last_activity > idle_timeout then "IDLE" else pulseVolumeCheck s
  else pulseVolumeCheck s

/-- Model of `PulseAudioStateDetector.update_stream_activity`. -/
def pulse_update_stream_activity (idle_timeout now : ℚ) (s : AudioStream) : AudioStream :=
  if pulse_get_stream_state idle_timeout now s = "RUNNING" then
    { s with last_activity := now }
  else s

/-- Model of `AudioStream.update_state` with a `PulseAudioStateDetector`: update
activity, then recompute `state`. -/
def pulse_update_state (idle_timeout now : ℚ) (s : AudioStream) : AudioStream :=
  let s1 := pulse_update_stream_activity idle_timeout now s
  { s1 with state := pulse_get_stream_state idle_timeout now s1 }

/-- Model of `BrowserStateDetector._get_tab_audio_state` (lines 292-322): the
best global signal across the client's tab list. -/
def _get_tab_audio_state (tabs : List ChromeTab) : String :=
  if tabs.isEmpty then "unknown"
  else if tabs.any (fun t => t.tab_type == "page" && t.audio_state == "playing") then "playing"
  else if tabs.any (fun t => t.tab_type == "page" && t.audio_state == "muted") then "muted"
  else if tabs.any (fun t => t.tab_type == "page" && t.audio_state == "paused") then "paused"
  else "unknown"

/-- The `state_mapping` dict of `BrowserStateDetector.get_stream_state`
with its `.get(browser_state.lower(), 'IDLE')` access. -/
def state_mapping_get (b : String) : String :=
  if pyLower b = "playing" then "RUNNING"
  else if pyLower b = "paused" then "CORKED"
  else if pyLower b = "muted" then "MUTED"
  else if pyLower b = "silent" then "IDLE"
  else if pyLower b = "unknown" then "IDLE"
  else if pyLower b = "error" then "IDLE"
  else "IDLE"

/-- Model of `BrowserStateDetector.get_stream_state` (lines 324-344). `connected`
models `self._chrome_connected or self._connect_to_chrome()`, and `tabs`
the client's tab list after `_query_all_tab_audio`. -/
def browser_get_stream_state (connected : Bool) (tabs : List ChromeTab)
    (s : AudioStream) : String :=
  if !connected then (if s.volume ≠ "0%" then "RUNNING" else "IDLE")
  else state_mapping_get (_get_tab_audio_state tabs)

/-- Model of `HybridStateDetector.get_stream_state` (lines 364-372): browser result
first; the literal fallback compares it against `'UNKNOWN'`. -/
def hybrid_get_stream_state (connected : Bool) (tabs : List ChromeTab)
    (idle_timeout now : ℚ) (s : AudioStream) : String :=
  let browser_state := browser_get_stream_state connected tabs s
  if browser_state ≠ "UNKNOWN" then browser_state
  else pulse_get_stream_state idle_timeout now s

/-! ## Shared lemmas -/

theorem pactl_foldl_err (ls : List String) (st : PactlSt) (h : st.err.isSome) :
    List.foldl pactlStep st ls = st := by
  induction ls with
  | nil => rfl
  | cons l ls ih =>
    rw [List.foldl_cons, show pactlStep st l = st from by simp [pactlStep, h]]
    exact ih

theorem pactlStep_err_of_bad (st : PactlSt) (l : String)
    (hs : pyStartsWith (pyStrip l) "Sink Input #" = true)
    (hi : pyInt (((pySplit (pyStrip l) "#")[1]?).getD "") = none) :
    ((pactlStep st l).err).isSome := by
  by_cases he : st.err.isSome
  · have hst : pactlStep st l = st := by simp [pactlStep, he]
    rw [hst]
    exact he
  · rcases h2 : (pySplit (pyStrip l) "#")[1]? with _ | p
    · simp [pactlStep, he, hs, h2]
    · have hp : pyInt p = none := by simpa [h2] using hi
      simp [pactlStep, he, hs, h2, hp]

theorem listInfix_iff (n h : List Char) : listInfix n h = true ↔ n <:+: h := by
  induction h with
  | nil =>
    simp [listInfix, List.isPrefixOf_iff_prefix, List.infix_nil, List.prefix_nil]
  | cons c cs ih =>
    simp [listInfix, List.isPrefixOf_iff_prefix, List.infix_cons_iff, ih]

/-! ## Claim theorems -/

/-- C1: the spec says a mixer record with `corked = false` and
`muted = true` (and no routing-graph match) merges to state `MUTED`.  The
code does not: `merge_stream_data` reads the dict key `mute`, which
`_parse_pactl_sink_inputs` never writes (it writes `muted`, the key the
same function reads two lines later for the raw `_muted` flag), so the
`MUTED` branch is dead and the volume check decides.  At the failing
input below — a `Mute: yes` mixer block, no routing records — the parsed
record carries `muted = true`, the merged stream stores `_muted = true`,
yet its state is `RUNNING`, not `MUTED`. -/
theorem c1_mute_key_mismatch :
    _parse_pactl_sink_inputs "Sink Input #7\nCorked: no\nMute: yes\nVolume: 65%" =
      .ok [{ id := some 7, corked := some false, muted := some true, volume := some "65%" }]
    ∧ (merge_stream_data
        [{ id := some 7, corked := some false, muted := some true, volume := some "65%" }]
        [] (.error ()) 0).map (fun ss => ss.map fun s => (s.state, s._muted)) =
      .ok [("RUNNING", true)]
    ∧ ("RUNNING" : String) ≠ "MUTED" := by
  refine ⟨by decide, by decide, by decide⟩

/-- C10: a recognized property line before any record header makes the
mixer parser emit a leading record with no `id` key, and the reconciler's
merge then fails with a `KeyError` on that record instead of returning a
list. -/
theorem c10_leading_idless_record :
    _parse_pactl_sink_inputs "application.name = \"X\"\nSink Input #5" =
      .ok [{ application := some "X" }, { id := some 5 }]
    ∧ ({ application := some "X" } : RawRecord).id = none
    ∧ merge_stream_data [{ application := some "X" }, { id := some 5 }] [] (.error ()) 0 =
      .error .keyError := by
  refine ⟨by decide, by decide, by decide⟩

/-- C5 counterexample: on a mixer listing whose record header carries the
non-integer id `abc`, the listing call does not return an empty list; the
`ValueError` of the `int` conversion escapes (only
`subprocess.CalledProcessError` is caught). -/
theorem c5_nonint_id_cex :
    list_sink_inputs_pactl (.ok "Sink Input #abc") = .error .valueError
    ∧ list_sink_inputs_pactl (.ok "Sink Input #abc") ≠ .ok [] := by
  refine ⟨by decide, by decide⟩

/-- C5 amended: a non-integer id in a record-header line aborts the whole
parse of that call with a raised `ValueError` (no partial list and no
empty list is returned): whenever some line of the output is a
`Sink Input #` header whose id part does not parse as an integer, the
listing call's result is not `.ok` of any list. -/
theorem c5_nonint_id_aborts (out : String)
    (h : ∃ l ∈ pySplit out "\n", pyStartsWith (pyStrip l) "Sink Input #" = true ∧
         pyInt (((pySplit (pyStrip l) "#")[1]?).getD "") = none) :
    ∀ res, list_sink_inputs_pactl (.ok out) ≠ .ok res := by
  obtain ⟨l, hmem, hs, hi⟩ := h
  obtain ⟨ls1, ls2, hsplit⟩ := List.append_of_mem hmem
  intro res hok
  have herr : ((parsePactlLines (pySplit out "\n")).err).isSome := by
    rw [hsplit]
    unfold parsePactlLines
    rw [List.foldl_append, List.foldl_cons]
    by_cases h1 : ((List.foldl pactlStep {} ls1).err).isSome
    · rw [show pactlStep (List.foldl pactlStep {} ls1) l = List.foldl pactlStep {} ls1 from by
        simp [pactlStep, h1]]
      rw [pactl_foldl_err ls2 _ h1]
      exact h1
    · have h2 := pactlStep_err_of_bad (List.foldl pactlStep {} ls1) l hs hi
      rw [pactl_foldl_err ls2 _ h2]
      exact h2
  rcases he : (parsePactlLines (pySplit out "\n")).err with _ | e
  · rw [he] at herr
    simp at herr
  · simp only [list_sink_inputs_pactl, _parse_pactl_sink_inputs, he] at hok
    exact Except.noConfusion hok

/-- C5 witness: the amended theorem applied at the concrete output
`Sink Input #abc` and the empty result list. -/
theorem c5_nonint_id_aborts_witness :
    list_sink_inputs_pactl (.ok "Sink Input #abc") ≠ .ok [] :=
  c5_nonint_id_aborts "Sink Input #abc"
    ⟨"Sink Input #abc", by decide, by decide, by decide⟩ []

/-- C6 counterexample: the claim says any line containing the literal
marker `Streams:` opens the active section.  The parser actually looks
for the longer literal with the tree-drawing prefix, so a dump whose
marker line is a bare `Streams:` yields no records at all, although it is
followed by a well-formed entry line. -/
theorem c6_bare_marker_cex :
    _parse_wpctl_status "Streams:\n   1. Foo" = .ok []
    ∧ _parse_wpctl_status "Streams:\n   1. Foo" ≠
        .ok [{ id := some 1, name := some "Foo", state := some "RUNNING" }] := by
  refine ⟨by decide, by decide⟩

/-- C6 amended: the section marker is the literal `└─ Streams:` (a bare
`Streams:` does not open it).  Characterisation of the parser's line
step while no exception is pending: a line containing the marker opens
the section and captures nothing; a non-blank line starting with neither
a space nor a tab closes an open section; while the section is open, an
indented line matching `<int>. <name>` appends the record
`{id, display_name, state: RUNNING}`. -/
theorem c6_streams_section (st : WpctlSt) (line : String) (herr : st.err = none) :
    (strIn line "└─ Streams:" = true →
      wpctlStep st line = { st with in_streams := true })
    ∧ (strIn line "└─ Streams:" = false → pyStrip line ≠ "" →
        pyStartsWith line " " = false → pyStartsWith line "\t" = false →
        st.in_streams = true →
        wpctlStep st line = { st with in_streams := false })
    ∧ (∀ (n : Int) (nm tok : String),
        strIn line "└─ Streams:" = false →
        (pyStartsWith line " " = true ∨ pyStartsWith line "\t" = true) →
        st.in_streams = true → pyStrip line ≠ "" →
        matchesNumDot line = true →
        pySplitSpace1 (pyStrip line) = [tok, nm] →
        pyInt (pyRstripDot tok) = some n →
        wpctlStep st line = { st with streams := st.streams ++
          [{ id := some n, name := some nm, state := some "RUNNING" }] }) := by
  refine ⟨fun hmark => ?_, fun hmark hblank hsp htab hin => ?_, ?_⟩
  · simp [wpctlStep, herr, hmark]
  · simp [wpctlStep, herr, hmark, hblank, hsp, htab, hin]
  · intro n nm tok hmark hind hin hblank hnum hsplit hint
    rcases hind with hsp | htab
    · simp [wpctlStep, herr, hmark, hsp, hin, hblank, hnum, hsplit, hint]
    · simp [wpctlStep, herr, hmark, htab, hin, hblank, hnum, hsplit, hint]

/-- C6 witness: the capture conjunct of the amended theorem applied to
the open section state and the concrete line of three spaces, `1.`, and
`Foo`. -/
theorem c6_streams_section_witness :
    wpctlStep { streams := [], in_streams := true, err := none } "   1. Foo" =
      { streams := [{ id := some 1, name := some "Foo", state := some "RUNNING" }],
        in_streams := true, err := none } := by
  have h := (c6_streams_section { streams := [], in_streams := true, err := none }
    "   1. Foo" rfl).2.2 1 "Foo" "1." (by decide) (Or.inl (by decide)) rfl (by decide)
    (by decide) (by decide) (by decide)
  simpa using h

/-- C7 counterexample: the claim says a record whose media field alone
contains `google chrome` is classified as a browser stream; the
classifier never reads the media key, so it is not. -/
theorem c7_media_only_cex :
    is_browser_stream { media := some "google chrome" } = false := by
  decide

/-- C7 amended: the browser classification matches the fixed keyword list
case-insensitively as substrings of the record's application field and of
its routing display-name field (key `name`); the media field is not
consulted (changing it never changes the result). -/
theorem c7_browser_keywords (r : RawRecord) :
    (∀ m, is_browser_stream { r with media := m } = is_browser_stream r)
    ∧ (is_browser_stream r = true ↔ ∃ b ∈ browser_names,
        b.toList <:+: (pyLower (r.application.getD "")).toList
        ∨ b.toList <:+: (pyLower (r.name.getD "")).toList) := by
  refine ⟨fun m => rfl, ?_⟩
  simp [is_browser_stream, List.any_eq_true, strIn, listInfix_iff]

/-- C7 witness: the amended theorem applied at a record whose application
field contains a browser keyword in mixed case. -/
theorem c7_browser_keywords_witness :
    is_browser_stream { application := some "Mozilla FIREFOX" } = true :=
  (c7_browser_keywords { application := some "Mozilla FIREFOX" }).2.mpr
    ⟨"firefox", by decide, Or.inl ((listInfix_iff _ _).mp (by decide))⟩

theorem any_page (tabs : List ChromeTab) (stv : String)
    (h : ∀ t ∈ tabs, t.tab_type = "page") :
    (tabs.any fun t => t.tab_type == "page" && t.audio_state == stv)
      = tabs.any fun t => t.audio_state == stv := by
  induction tabs with
  | nil => rfl
  | cons t ts ih =>
    have ht : t.tab_type = "page" := h t (by simp)
    simp [List.any_cons, ht, ih fun x hx => h x (by simp [hx])]

/-- C3: over a collection of page tabs with assigned per-tab audio
states, the browser strategy's stream state is the best global signal:
`RUNNING` if some tab is playing, else `MUTED` if some tab is muted, else
`CORKED` if some tab is paused, else `IDLE`. -/
theorem c3_browser_aggregation (tabs : List ChromeTab) (s : AudioStream)
    (h : ∀ t ∈ tabs, t.tab_type = "page") :
    browser_get_stream_state true tabs s =
      if tabs.any (fun t => t.audio_state == "playing") then "RUNNING"
      else if tabs.any (fun t => t.audio_state == "muted") then "MUTED"
      else if tabs.any (fun t => t.audio_state == "paused") then "CORKED"
      else "IDLE" := by
  have h1 := any_page tabs "playing" h
  have h2 := any_page tabs "muted" h
  have h3 := any_page tabs "paused" h
  by_cases he : tabs = []
  · subst he
    rfl
  · have he2 : tabs.isEmpty = false := by simpa using he
    simp only [browser_get_stream_state, _get_tab_audio_state, he2, h1, h2, h3,
      Bool.not_true, Bool.false_eq_true, if_false]
    split_ifs <;> decide

/-- C3 witness: three paused page tabs aggregate to `CORKED`; replacing
one of them by an unmuted playing tab yields `RUNNING`. -/
theorem c3_browser_aggregation_witness :
    browser_get_stream_state true
      [{ tab_type := "page", audio_state := "paused" },
       { tab_type := "page", audio_state := "paused" },
       { tab_type := "page", audio_state := "paused" }]
      { id := 1, state := "X", application := "a", media := "m", sink := "s",
        sink_name := "s", monitor := "s.monitor" } = "CORKED"
    ∧ browser_get_stream_state true
      [{ tab_type := "page", audio_state := "playing" },
       { tab_type := "page", audio_state := "paused" },
       { tab_type := "page", audio_state := "paused" }]
      { id := 1, state := "X", application := "a", media := "m", sink := "s",
        sink_name := "s", monitor := "s.monitor" } = "RUNNING" := by
  constructor
  · have h := c3_browser_aggregation
      [{ tab_type := "page", audio_state := "paused" },
       { tab_type := "page", audio_state := "paused" },
       { tab_type := "page", audio_state := "paused" }]
      { id := 1, state := "X", application := "a", media := "m", sink := "s",
        sink_name := "s", monitor := "s.monitor" } (by decide)
    simpa using h
  · have h := c3_browser_aggregation
      [{ tab_type := "page", audio_state := "playing" },
       { tab_type := "page", audio_state := "paused" },
       { tab_type := "page", audio_state := "paused" }]
      { id := 1, state := "X", application := "a", media := "m", sink := "s",
        sink_name := "s", monitor := "s.monitor" } (by decide)
    simpa using h

/-- C4 counterexample: the claim's precedence says that when neither
corked, muted, nor timed out, the state is `IDLE` only if the numeric
digits of the volume string parse to `0`, else `RUNNING`.  For the empty
volume string the digits do not parse (Python `int('')` raises), so the
claim's precedence yields `RUNNING`; the code first replaces a falsy
volume by `0%` and returns `IDLE`. -/
theorem c4_empty_volume_cex :
    pulse_get_stream_state 5 100
      { id := 1, state := "RUNNING", application := "app", media := "m", sink := "s",
        sink_name := "s", monitor := "s.monitor", volume := "", last_activity := 0,
        _corked := false, _muted := false } = "IDLE"
    ∧ ("IDLE" : String) ≠ "RUNNING" := by
  refine ⟨by decide, by decide⟩

theorem pulseVolumeCheck_idle (s : AudioStream)
    (h : (if s.volume = "" then "0%" else s.volume).toList.filter Char.isDigit ≠ [] ∧
      digitsVal ((if s.volume = "" then "0%" else s.volume).toList.filter Char.isDigit) = 0) :
    pulseVolumeCheck s = "IDLE" := by
  unfold pulseVolumeCheck
  exact if_pos h

theorem pulseVolumeCheck_running (s : AudioStream)
    (h : ¬((if s.volume = "" then "0%" else s.volume).toList.filter Char.isDigit ≠ [] ∧
      digitsVal ((if s.volume = "" then "0%" else s.volume).toList.filter Char.isDigit) = 0)) :
    pulseVolumeCheck s = "RUNNING" := by
  unfold pulseVolumeCheck
  exact if_neg h

/-- C4 amended: the local strategy's exact precedence, with the volume
string first defaulted to `0%` when it is empty: corked forces `CORKED`
regardless of everything else; else muted forces `MUTED`; else a positive
`last_activity` older than `idle_timeout` forces `IDLE`; else `IDLE` iff
the digits of the (defaulted) volume string parse to `0`; else
`RUNNING`. -/
theorem c4_pulse_precedence (idle_timeout now : ℚ) (s : AudioStream) :
    (s._corked = true → pulse_get_stream_state idle_timeout now s = "CORKED")
    ∧ (s._corked = false → s._muted = true →
        pulse_get_stream_state idle_timeout now s = "MUTED")
    ∧ (s._corked = false → s._muted = false → s.last_activity > 0 →
        now - s.last_activity > idle_timeout →
        pulse_get_stream_state idle_timeout now s = "IDLE")
    ∧ (s._corked = false → s._muted = false →
        ¬(s.last_activity > 0 ∧ now - s.last_activity > idle_timeout) →
        ((if s.volume = "" then "0%" else s.volume).toList.filter Char.isDigit ≠ [] ∧
          digitsVal ((if s.volume = "" then "0%" else s.volume).toList.filter Char.isDigit)
            = 0) →
        pulse_get_stream_state idle_timeout now s = "IDLE")
    ∧ (s._corked = false → s._muted = false →
        ¬(s.last_activity > 0 ∧ now - s.last_activity > idle_timeout) →
        ¬((if s.volume = "" then "0%" else s.volume).toList.filter Char.isDigit ≠ [] ∧
          digitsVal ((if s.volume = "" then "0%" else s.volume).toList.filter Char.isDigit)
            = 0) →
        pulse_get_stream_state idle_timeout now s = "RUNNING") := by
  refine ⟨fun hc => by simp [pulse_get_stream_state, hc],
    fun hc hm => by simp [pulse_get_stream_state, hc, hm],
    fun hc hm hpos hold => by simp [pulse_get_stream_state, hc, hm, hpos, hold],
    fun hc hm hnact hvol => ?_, fun hc hm hnact hvol => ?_⟩
  · have hrun : pulseVolumeCheck s = "IDLE" := pulseVolumeCheck_idle s hvol
    by_cases hpos : s.last_activity > 0
    · have hnold : ¬(now - s.last_activity > idle_timeout) := fun hold => hnact ⟨hpos, hold⟩
      simp [pulse_get_stream_state, hc, hm, hpos, hnold, hrun]
    · simp [pulse_get_stream_state, hc, hm, hpos, hrun]
  · have hrun : pulseVolumeCheck s = "RUNNING" := pulseVolumeCheck_running s hvol
    by_cases hpos : s.last_activity > 0
    · have hnold : ¬(now - s.last_activity > idle_timeout) := fun hold => hnact ⟨hpos, hold⟩
      simp [pulse_get_stream_state, hc, hm, hpos, hnold, hrun]
    · simp [pulse_get_stream_state, hc, hm, hpos, hrun]

/-- C4 witness: the claim's concrete scenario — not corked, not muted,
volume `55%`, `last_activity = now - (idle_timeout + 1)` with
`idle_timeout = 5` and `now = 100` — is `IDLE` by the timeout branch. -/
theorem c4_pulse_precedence_witness :
    pulse_get_stream_state 5 100
      { id := 1, state := "RUNNING", application := "app", media := "m", sink := "s",
        sink_name := "s", monitor := "s.monitor", volume := "55%", last_activity := 94,
        _corked := false, _muted := false } = "IDLE" :=
  (c4_pulse_precedence 5 100
    { id := 1, state := "RUNNING", application := "app", media := "m", sink := "s",
      sink_name := "s", monitor := "s.monitor", volume := "55%", last_activity := 94,
      _corked := false, _muted := false }).2.2.1 rfl rfl (by norm_num) (by norm_num)

/-- C8: the hybrid strategy always returns exactly the browser strategy's
result: the browser result is always one of the four canonical states
(never the sentinel `UNKNOWN` that the hybrid fallback compares
against), so the local fallback branch cannot trigger. -/
theorem c8_hybrid_defers (connected : Bool) (tabs : List ChromeTab)
    (idle_timeout now : ℚ) (s : AudioStream) :
    hybrid_get_stream_state connected tabs idle_timeout now s =
      browser_get_stream_state connected tabs s
    ∧ browser_get_stream_state connected tabs s ∈
        (["RUNNING", "CORKED", "MUTED", "IDLE"] : List String) := by
  have hmem : browser_get_stream_state connected tabs s ∈
      (["RUNNING", "CORKED", "MUTED", "IDLE"] : List String) := by
    unfold browser_get_stream_state state_mapping_get
    split_ifs <;> simp
  refine ⟨?_, hmem⟩
  have hne : browser_get_stream_state connected tabs s ≠ "UNKNOWN" := by
    simp only [List.mem_cons, List.not_mem_nil, or_false] at hmem
    rcases hmem with h | h | h | h
    · simp [h]
    · simp [h]
    · simp [h]
    · simp [h]
  simp [hybrid_get_stream_state, hne]

theorem dictGet_none (n : Int) (wpctl : List RawRecord) :
    (∀ w ∈ wpctl, w.id.isSome ∧ w.id ≠ some n) →
    ∃ wl, buildLookup wpctl = .ok wl ∧ dictGet wl n = none := by
  induction wpctl with
  | nil => exact fun _ => ⟨[], rfl, rfl⟩
  | cons r rs ih =>
    intro h
    obtain ⟨hsome, hne⟩ := h r (by simp)
    obtain ⟨m, hm⟩ := Option.isSome_iff_exists.mp hsome
    obtain ⟨wl, hbl, hdg⟩ := ih fun w hw => h w (by simp [hw])
    refine ⟨(m, r) :: wl, ?_, ?_⟩
    · simp [buildLookup, hm, hbl, Except.map]
    · have hmn : (m == n) = false := by
        have hne2 : m ≠ n := fun he => hne (by rw [hm, he])
        simpa using hne2
      simpa [dictGet, hmn] using hdg

/-- C2 counterexample: a mixer record with `corked = false`,
`muted = false`, no routing match and volume string `10%` merges to
`IDLE`, although the claim says every volume string other than `0%` —
naming `10%` — yields `RUNNING`.  The code tests `'0%' in volume`, and
`0%` is a substring of `10%`. -/
theorem c2_volume_substring_cex :
    (merge_stream_data
      [{ id := some 3, corked := some false, muted := some false, volume := some "10%" }]
      [] (.error ()) 0).map (fun ss => ss.map AudioStream.state) = .ok ["IDLE"]
    ∧ ("IDLE" : String) ≠ "RUNNING" := by
  refine ⟨by decide, by decide⟩

/-- C2 amended: for a mixer record with no matching routing-graph record
and with neither the corked flag nor the (never-present) `mute` key set,
the merged state is `IDLE` iff `0%` occurs as a substring of the volume
string (so `0%`, `10%` and `100%` all give `IDLE`), and `RUNNING`
otherwise. -/
theorem c2_idle_iff_zero_substring (r : RawRecord) (n : Int) (wpctl : List RawRecord)
    (sinksOut : Except Unit String) (now : ℚ)
    (hid : r.id = some n)
    (hw : ∀ w ∈ wpctl, w.id.isSome ∧ w.id ≠ some n)
    (hcork : r.corked.getD false = false)
    (hmute : r.mute = none)
    (hmuted : r.muted.getD false = false) :
    (merge_stream_data [r] wpctl sinksOut now).map (fun ss => ss.map AudioStream.state) =
      .ok [if strIn (r.volume.getD "0%") "0%" then "IDLE" else "RUNNING"] := by
  obtain ⟨wl, hbl, hdg⟩ := dictGet_none n wpctl hw
  by_cases hv : strIn (r.volume.getD "0%") "0%" = true
  · simp [merge_stream_data, hbl, mergeLoop, mergeOneStream, hid, hdg, hcork, hmute, hv,
      Except.map]
  · simp [merge_stream_data, hbl, mergeLoop, mergeOneStream, hid, hdg, hcork, hmute, hv,
      Except.map]

/-- C2 witness: the amended theorem applied at volume `0%` (state
`IDLE`) and at the concrete scenario of the spec — id 42, Google Chrome,
volume `65%` (state `RUNNING`). -/
theorem c2_idle_iff_zero_substring_witness :
    (merge_stream_data
      [{ id := some 9, corked := some false, muted := some false, volume := some "0%" }]
      [] (.error ()) 0).map (fun ss => ss.map AudioStream.state) = .ok ["IDLE"]
    ∧ (merge_stream_data
      [{ id := some 42, application := some "Google Chrome", corked := some false,
         muted := some false, volume := some "65%" }]
      [] (.error ()) 0).map (fun ss => ss.map AudioStream.state) = .ok ["RUNNING"] := by
  constructor
  · have h := c2_idle_iff_zero_substring
      { id := some 9, corked := some false, muted := some false, volume := some "0%" }
      9 [] (.error ()) 0 rfl (by simp) rfl rfl rfl
    simpa using h
  · have h := c2_idle_iff_zero_substring
      { id := some 42, application := some "Google Chrome", corked := some false,
        muted := some false, volume := some "65%" }
      42 [] (.error ()) 0 rfl (by simp) rfl rfl rfl
    simpa using h

theorem mergeLoop_mem (wl : List (Int × RawRecord)) (sinksOut : Except Unit String)
    (now : ℚ) (l : List RawRecord) :
    ∀ (out : List AudioStream), mergeLoop wl sinksOut now l = .ok out →
      ∀ s ∈ out, ∃ r ∈ l, mergeOneStream wl sinksOut now r = .ok s := by
  induction l with
  | nil =>
    intro out h s hs
    simp only [mergeLoop, Except.ok.injEq] at h
    subst h
    simp at hs
  | cons a as ih =>
    intro out h s hs
    cases hfa : mergeOneStream wl sinksOut now a with
    | error e => simp [mergeLoop, hfa] at h
    | ok x =>
      cases hrest : mergeLoop wl sinksOut now as with
      | error e => simp [mergeLoop, hfa, hrest] at h
      | ok xs =>
        simp only [mergeLoop, hfa, hrest, Except.ok.injEq] at h
        subst h
        rcases List.mem_cons.mp hs with rfl | hsx
        · exact ⟨a, by simp, hfa⟩
        · obtain ⟨r2, hr2, hf2⟩ := ih xs hrest s hsx
          exact ⟨r2, by simp [hr2], hf2⟩

theorem mergeOneStream_monitor (wl : List (Int × RawRecord)) (sinksOut : Except Unit String)
    (now : ℚ) (r : RawRecord) (s : AudioStream)
    (h : mergeOneStream wl sinksOut now r = .ok s) :
    s.monitor = s.sink_name ++ ".monitor" := by
  cases hid : r.id with
  | none => simp [mergeOneStream, hid] at h
  | some n =>
    simp only [mergeOneStream, hid, Except.ok.injEq] at h
    subst h
    rfl

/-- C9: every `AudioStream` produced by the reconciler's merge satisfies
`monitor == sink_name + ".monitor"`, and a state refresh through
`update_state` with the local detector preserves every field other than
`state` and `last_activity` (in particular the invariant). -/
theorem c9_monitor_invariant :
    (∀ (pactl wpctl : List RawRecord) (sinksOut : Except Unit String) (now : ℚ)
        (streams : List AudioStream),
      merge_stream_data pactl wpctl sinksOut now = .ok streams →
      ∀ s ∈ streams, s.monitor = s.sink_name ++ ".monitor")
    ∧ (∀ (idle_timeout now : ℚ) (s : AudioStream),
        (pulse_update_state idle_timeout now s).monitor = s.monitor
        ∧ (pulse_update_state idle_timeout now s).sink_name = s.sink_name
        ∧ (pulse_update_state idle_timeout now s).id = s.id
        ∧ (pulse_update_state idle_timeout now s).application = s.application
        ∧ (pulse_update_state idle_timeout now s).media = s.media
        ∧ (pulse_update_state idle_timeout now s).sink = s.sink
        ∧ (pulse_update_state idle_timeout now s).volume = s.volume
        ∧ (pulse_update_state idle_timeout now s).is_teams = s.is_teams
        ∧ (pulse_update_state idle_timeout now s).is_browser = s.is_browser
        ∧ (pulse_update_state idle_timeout now s)._corked = s._corked
        ∧ (pulse_update_state idle_timeout now s)._muted = s._muted) := by
  constructor
  · intro pactl wpctl sinksOut now streams h s hs
    cases hbl : buildLookup wpctl with
    | error e => simp [merge_stream_data, hbl] at h
    | ok wl =>
      have hm : mergeLoop wl sinksOut now pactl = .ok streams := by
        simpa [merge_stream_data, hbl] using h
      obtain ⟨r, _, hr⟩ := mergeLoop_mem wl sinksOut now pactl streams hm s hs
      exact mergeOneStream_monitor wl sinksOut now r s hr
  · intro idle_timeout now s
    unfold pulse_update_state pulse_update_stream_activity
    split_ifs <;> exact ⟨rfl, rfl, rfl, rfl, rfl, rfl, rfl, rfl, rfl, rfl, rfl⟩

/-- C9 witness: the merge conjunct applied at a one-record mixer list
and the produced stream, then the preservation conjunct applied to that
stream at concrete times. -/
theorem c9_monitor_invariant_witness :
    ({ id := 1, state := "IDLE", application := "Unknown", media := "Unknown",
       sink := "unknown", sink_name := "unknown", monitor := "unknown.monitor",
       volume := "0%", is_teams := false, is_browser := false, last_activity := 0,
       _corked := false, _muted := false } : AudioStream).monitor =
      ({ id := 1, state := "IDLE", application := "Unknown", media := "Unknown",
         sink := "unknown", sink_name := "unknown", monitor := "unknown.monitor",
         volume := "0%", is_teams := false, is_browser := false, last_activity := 0,
         _corked := false, _muted := false } : AudioStream).sink_name ++ ".monitor"
    ∧ (pulse_update_state 5 100
        { id := 1, state := "IDLE", application := "Unknown", media := "Unknown",
          sink := "unknown", sink_name := "unknown", monitor := "unknown.monitor",
          volume := "0%", is_teams := false, is_browser := false, last_activity := 0,
          _corked := false, _muted := false }).monitor = "unknown.monitor" :=
  ⟨c9_monitor_invariant.1 [{ id := some 1 }] [] (.error ()) 0
      [{ id := 1, state := "IDLE", application := "Unknown", media := "Unknown",
         sink := "unknown", sink_name := "unknown", monitor := "unknown.monitor",
         volume := "0%", is_teams := false, is_browser := false, last_activity := 0,
         _corked := false, _muted := false }] (by decide) _ (by decide),
   (c9_monitor_invariant.2 5 100
      { id := 1, state := "IDLE", application := "Unknown", media := "Unknown",
        sink := "unknown", sink_name := "unknown", monitor := "unknown.monitor",
        volume := "0%", is_teams := false, is_browser := false, last_activity := 0,
        _corked := false, _muted := false }).1⟩

end AudioDetect
